import Mathlib

/-!
Shallow embedding of `src/netlify/resource_site.go` from
`terraform-provider-netlify`: the Terraform resource for a Netlify site.

The Go file implements four lifecycle verbs (create / read / update /
delete) on top of a generated REST client.  We embed:

* the declared/tracked attribute set (`ResourceData`), mirroring the
  Terraform schema of `resourceSite` (name, custom_domain, deploy_url,
  account_slug, account_name, and an optional `repo` block);
* the generated API model types actually touched by the code
  (`models.Site`, `models.SiteSetup`, `models.RepoInfo`);
* the remote API as a record of response functions (`NetlifyOps`),
  with errors distinguishing the `GetSiteDefault` 404 case the code
  inspects;
* the four verb functions plus `resourceSite_setupStruct`, each
  returning the resulting error status, the resulting attribute set
  (the Go code mutates `d` in place) and the trace of remote calls
  issued, so that "exactly one call" properties are statable.
-/

namespace Netlify

/-- The `repo` block of the declared attributes, as in the Terraform
schema of `resourceSite` (lines 47-89 of the Go source).  The schema's
`TypeInt` field `installation_id` is modelled as `Int`. -/
structure RepoAttr where
  command : String
  deploy_key_id : String
  dir : String
  provider : String
  repo_path : String
  repo_branch : String
  installation_id : Int
deriving DecidableEq

/-- The declared/tracked attribute set of a site resource, i.e. the
fields of `*schema.ResourceData` the Go code reads or writes.  `repo`
is a `MaxItems: 1` list: `none` models the empty list, for which
`GetOk` reports absent. -/
structure ResourceData where
  id : String
  name : String
  custom_domain : String
  deploy_url : String
  account_slug : String
  account_name : String
  repo : Option RepoAttr
deriving DecidableEq

/-- `d.SetId(s)`: only the identifier changes. -/
def setId (d : ResourceData) (s : String) : ResourceData :=
  { d with id := s }

/-- `models.RepoInfo`: the build-settings object of the outbound
payload and of the remote site. -/
structure RepoInfo where
  cmd : String
  deploy_key_id : String
  dir : String
  provider : String
  repo_path : String
  repo_branch : String
  installation_id : Int
deriving DecidableEq

/-- `models.SiteSetup` restricted to the fields the Go code populates:
the embedded `models.Site` fields `Name` and `CustomDomain`, plus the
optional `Repo` pointer (`none` models a nil pointer). -/
structure SiteSetup where
  name : String
  custom_domain : String
  repo : Option RepoInfo
deriving DecidableEq

/-- `models.Site` restricted to the fields the Go code reads from a
`GetSite` response.  `build_settings` is the possibly-nil
`BuildSettings` pointer. -/
structure Site where
  id : String
  name : String
  custom_domain : String
  deploy_url : String
  account_slug : String
  account_name : String
  build_settings : Option RepoInfo
deriving DecidableEq

/-- Errors returned by the remote API.  `getSiteDefault code` models a
`*operations.GetSiteDefault` carrying an HTTP status code (the only
error type the Go code inspects); `transport` models every other
failure value. -/
inductive ApiError where
  | getSiteDefault (code : Int) : ApiError
  | transport (msg : String) : ApiError
deriving DecidableEq

/-- The test the Go code performs at lines 139-142: the error is a
`*operations.GetSiteDefault` and its code is 404. -/
def isNotFound404 : ApiError → Bool
  | ApiError.getSiteDefault code => code == 404
  | ApiError.transport _ => false

/-- One remote call, with its arguments, as recorded in a trace. -/
inductive ApiCall where
  | createSite (payload : SiteSetup) : ApiCall
  | createSiteInTeam (slug : String) (payload : SiteSetup) : ApiCall
  | getSite (siteID : String) : ApiCall
  | updateSite (siteID : String) (payload : SiteSetup) : ApiCall
  | deleteSite (siteID : String) : ApiCall
deriving DecidableEq

/-- Whether a traced call is one of the two site-creation variants. -/
def isCreationCall : ApiCall → Bool
  | ApiCall.createSite _ => true
  | ApiCall.createSiteInTeam _ _ => true
  | _ => false

/-- Whether a traced call mutates the remote site (create, create in
team, update or delete, as opposed to get). -/
def isMutationCall : ApiCall → Bool
  | ApiCall.getSite _ => false
  | _ => true

/-- The remote API (`meta.Netlify.Operations` with `meta.AuthInfo`
already applied): a fixed response function per operation.  The
`UpdateSite` and `DeleteSite` responses carry a payload the Go code
ignores. -/
structure NetlifyOps where
  createSite : SiteSetup → Except ApiError Site
  createSiteInTeam : String → SiteSetup → Except ApiError Site
  getSite : String → Except ApiError Site
  updateSite : String → SiteSetup → Except ApiError Site
  deleteSite : String → Except ApiError Unit

/-- Result of one verb: the returned error (if any), the attribute set
after the in-place mutations, and the trace of remote calls issued. -/
structure OpResult where
  err : Option ApiError
  d : ResourceData
  calls : List ApiCall
deriving DecidableEq

/-- `resourceSite_setupStruct` (lines 195-220): builds the outbound
`models.SiteSetup`.  `GetOk("repo")` reports present exactly when the
one-element list is non-empty, i.e. when `d.repo` is `some`; in that
case every field of `models.RepoInfo` is populated from the block,
`installation_id` included (line 215). -/
def resourceSite_setupStruct (d : ResourceData) : SiteSetup :=
  let result : SiteSetup :=
    { name := d.name, custom_domain := d.custom_domain, repo := none }
  match d.repo with
  | some repo =>
      { result with
          repo := some
            { cmd := repo.command
              deploy_key_id := repo.deploy_key_id
              dir := repo.dir
              provider := repo.provider
              repo_path := repo.repo_path
              repo_branch := repo.repo_branch
              installation_id := repo.installation_id } }
  | none => result

/-- The field mapping of lines 148-167 applied after a successful
`GetSite`: every attribute is overwritten from the response; `repo` is
first cleared (line 153) and then set from `BuildSettings` only when
that pointer is non-nil and its `RepoPath` is non-empty (line 155). -/
def readSetFields (d : ResourceData) (site : Site) : ResourceData :=
  let d0 : ResourceData :=
    { d with
        name := site.name
        custom_domain := site.custom_domain
        deploy_url := site.deploy_url
        account_slug := site.account_slug
        account_name := site.account_name
        repo := none }
  match site.build_settings with
  | some bs =>
      if bs.repo_path ≠ "" then
        { d0 with
            repo := some
              { command := bs.cmd
                deploy_key_id := bs.deploy_key_id
                dir := bs.dir
                provider := bs.provider
                repo_path := bs.repo_path
                repo_branch := bs.repo_branch
                installation_id := bs.installation_id } }
      else d0
  | none => d0

/-- `resourceSiteRead` (lines 132-170): fetch by the current id; on a
`GetSiteDefault` 404 clear the id and return no error; on any other
error propagate it with the state untouched; on success map the
response into the attributes. -/
def resourceSiteRead (api : NetlifyOps) (d : ResourceData) : OpResult :=
  match api.getSite d.id with
  | Except.error e =>
      if isNotFound404 e then
        { err := none, d := setId d "", calls := [ApiCall.getSite d.id] }
      else
        { err := some e, d := d, calls := [ApiCall.getSite d.id] }
  | Except.ok site =>
      { err := none, d := readSetFields d site, calls := [ApiCall.getSite d.id] }

/-- `resourceSiteCreate` (lines 94-130): `GetOk("account_slug")`
reports present exactly when the string is non-empty, selecting the
team-scoped creation call; otherwise the default creation call is
issued.  On creation failure the error is returned with the state
untouched; on success the returned site's id is assigned and a full
read is performed. -/
def resourceSiteCreate (api : NetlifyOps) (d : ResourceData) : OpResult :=
  let setup := resourceSite_setupStruct d
  if d.account_slug ≠ "" then
    match api.createSiteInTeam d.account_slug setup with
    | Except.error e =>
        { err := some e, d := d
          calls := [ApiCall.createSiteInTeam d.account_slug setup] }
    | Except.ok site =>
        let r := resourceSiteRead api (setId d site.id)
        { err := r.err, d := r.d
          calls := ApiCall.createSiteInTeam d.account_slug setup :: r.calls }
  else
    match api.createSite setup with
    | Except.error e =>
        { err := some e, d := d, calls := [ApiCall.createSite setup] }
    | Except.ok site =>
        let r := resourceSiteRead api (setId d site.id)
        { err := r.err, d := r.d
          calls := ApiCall.createSite setup :: r.calls }

/-- `resourceSiteUpdate` (lines 172-184): one update call scoped to
the current id with the shared setup payload; on failure the error is
returned with the state untouched; on success a full read refreshes
the state. -/
def resourceSiteUpdate (api : NetlifyOps) (d : ResourceData) : OpResult :=
  let setup := resourceSite_setupStruct d
  match api.updateSite d.id setup with
  | Except.error e =>
      { err := some e, d := d, calls := [ApiCall.updateSite d.id setup] }
  | Except.ok _ =>
      let r := resourceSiteRead api d
      { err := r.err, d := r.d, calls := ApiCall.updateSite d.id setup :: r.calls }

/-- `resourceSiteDelete` (lines 186-192): one delete call scoped to
the current id; its error (if any) is returned unmodified. -/
def resourceSiteDelete (api : NetlifyOps) (d : ResourceData) : OpResult :=
  match api.deleteSite d.id with
  | Except.error e =>
      { err := some e, d := d, calls := [ApiCall.deleteSite d.id] }
  | Except.ok _ =>
      { err := none, d := d, calls := [ApiCall.deleteSite d.id] }

/-! ### Helper lemmas shared by several claim proofs -/

/-- The trace of one read is always exactly one get-site call on the
current id, whatever the response. -/
theorem resourceSiteRead_calls (api : NetlifyOps) (d : ResourceData) :
    (resourceSiteRead api d).calls = [ApiCall.getSite d.id] := by
  unfold resourceSiteRead
  cases hg : api.getSite d.id with
  | error e => by_cases h : isNotFound404 e <;> simp [h]
  | ok site => rfl

/-- Mapping a get-site response into the attributes never changes the
identifier. -/
theorem readSetFields_id (d : ResourceData) (site : Site) :
    (readSetFields d site).id = d.id := by
  unfold readSetFields
  cases site.build_settings with
  | none => rfl
  | some bs => by_cases h : bs.repo_path = "" <;> simp [h]

/-- The attribute set produced from a get-site response depends on the
prior attributes only through the identifier. -/
theorem readSetFields_congr (d d' : ResourceData) (site : Site) (h : d.id = d'.id) :
    readSetFields d site = readSetFields d' site := by
  unfold readSetFields
  cases site.build_settings with
  | none => rw [h]
  | some bs => by_cases hp : bs.repo_path = "" <;> simp [hp] <;> rw [h]

/-! ### Concrete fixtures for witnesses and counterexamples -/

/-- A fully populated declared `repo` block with a non-zero (locally
tracked, server-computed) installation id. -/
def repoEx : RepoAttr :=
  { command := "npm run build", deploy_key_id := "dk1", dir := "web"
    provider := "github", repo_path := "org/repo", repo_branch := "main"
    installation_id := 42 }

/-- Declared attributes with a repo block and no account slug. -/
def dRepoEx : ResourceData :=
  { id := "s1", name := "site1", custom_domain := "", deploy_url := ""
    account_slug := "", account_name := "", repo := some repoEx }

/-- Declared attributes with an account slug and no repo block. -/
def dTeamEx : ResourceData :=
  { id := "", name := "", custom_domain := "", deploy_url := ""
    account_slug := "team-x", account_name := "", repo := none }

/-- A remote build-settings object with a non-empty repo path. -/
def bsEx : RepoInfo :=
  { cmd := "make", deploy_key_id := "dk2", dir := "out", provider := "gitlab"
    repo_path := "grp/proj", repo_branch := "dev", installation_id := 7 }

/-- A remote site whose build settings are present with a non-empty
repo path. -/
def siteEx : Site :=
  { id := "srv-1", name := "srv-name", custom_domain := "cd", deploy_url := "du"
    account_slug := "acct", account_name := "acctn", build_settings := some bsEx }

/-- A remote site whose build settings are present but whose repo path
is empty. -/
def siteEmptyPathEx : Site :=
  { siteEx with build_settings := some { bsEx with repo_path := "" } }

/-- An API whose get-site always answers the 404 not-found default and
whose other operations all fail. -/
def api404 : NetlifyOps :=
  { createSite := fun _ => Except.error (ApiError.transport "boom")
    createSiteInTeam := fun _ _ => Except.error (ApiError.transport "boom")
    getSite := fun _ => Except.error (ApiError.getSiteDefault 404)
    updateSite := fun _ _ => Except.error (ApiError.transport "boom")
    deleteSite := fun _ => Except.error (ApiError.transport "boom") }

/-- An API whose get-site always succeeds with `siteEmptyPathEx`. -/
def apiEmptyPath : NetlifyOps :=
  { api404 with getSite := fun _ => Except.ok siteEmptyPathEx }

/-- An API on which every operation succeeds, get-site always
answering `siteEx`. -/
def apiOk : NetlifyOps :=
  { createSite := fun _ => Except.ok siteEx
    createSiteInTeam := fun _ _ => Except.ok siteEx
    getSite := fun _ => Except.ok siteEx
    updateSite := fun _ _ => Except.ok siteEx
    deleteSite := fun _ => Except.ok () }

/-! ### Claim theorems -/

/-- C1 counterexample: the claim says the outbound payload never
contains `installation_id`, but `resourceSite_setupStruct` (line 215)
copies the local `installation_id` attribute into the payload: on a
declared set whose repo block carries installation id 42, the payload's
repo object carries installation id 42, not an unpopulated zero. -/
theorem C1_counterexample :
    dRepoEx.repo.isSome = true ∧
    (resourceSite_setupStruct dRepoEx).repo.map RepoInfo.installation_id = some 42 ∧
    some (42 : Int) ≠ some (0 : Int) := by
  refine ⟨rfl, rfl, by decide⟩

/-- C1 (amended): for every declared attribute set with the repo block
present, the outbound payload's repo object carries the six writable
sub-fields copied from the block AND `installation_id` copied from the
local (computed) `installation_id` attribute. -/
theorem C1_repo_payload_fields (d : ResourceData) (r : RepoAttr) (h : d.repo = some r) :
    (resourceSite_setupStruct d).repo = some
      { cmd := r.command, deploy_key_id := r.deploy_key_id, dir := r.dir
        provider := r.provider, repo_path := r.repo_path
        repo_branch := r.repo_branch, installation_id := r.installation_id } := by
  simp [resourceSite_setupStruct, h]

/-- Witness for C1 (amended) at the concrete fixture. -/
theorem C1_repo_payload_fields_witness :
    (resourceSite_setupStruct dRepoEx).repo = some
      { cmd := "npm run build", deploy_key_id := "dk1", dir := "web"
        provider := "github", repo_path := "org/repo", repo_branch := "main"
        installation_id := 42 } :=
  C1_repo_payload_fields dRepoEx repoEx rfl

/-- C3: when get-site fails with the 404 not-found condition, read
clears the identifier, reports no error, and surfaces nothing else. -/
theorem C3_read_notfound_clears_id (api : NetlifyOps) (d : ResourceData) (e : ApiError)
    (h : api.getSite d.id = Except.error e) (h404 : isNotFound404 e = true) :
    resourceSiteRead api d =
      { err := none, d := setId d "", calls := [ApiCall.getSite d.id] } := by
  simp [resourceSiteRead, h, h404]

/-- Witness for C3: a concrete 404-answering API. -/
theorem C3_read_notfound_clears_id_witness :
    resourceSiteRead api404 dRepoEx =
      { err := none, d := setId dRepoEx "", calls := [ApiCall.getSite "s1"] } :=
  C3_read_notfound_clears_id api404 dRepoEx (ApiError.getSiteDefault 404) rfl rfl

/-- C4: on a successful get-site response, read reports no error and
the resulting repo attribute is present exactly when the remote build
settings are present with a non-empty repo path (then equal to the
mapped remote fields) and is absent in every other case; the right-hand
side does not mention the prior attributes, so no stale value can
survive. -/
theorem C4_read_repo_iff (api : NetlifyOps) (d : ResourceData) (site : Site)
    (h : api.getSite d.id = Except.ok site) :
    (resourceSiteRead api d).err = none ∧
    (resourceSiteRead api d).d.repo =
      (match site.build_settings with
       | some bs =>
           if bs.repo_path ≠ "" then
             some { command := bs.cmd, deploy_key_id := bs.deploy_key_id, dir := bs.dir
                    provider := bs.provider, repo_path := bs.repo_path
                    repo_branch := bs.repo_branch
                    installation_id := bs.installation_id }
           else none
       | none => none) := by
  refine ⟨by simp [resourceSiteRead, h], ?_⟩
  simp only [resourceSiteRead, h]
  cases hbs : site.build_settings with
  | none => simp [readSetFields, hbs]
  | some bs => by_cases hp : bs.repo_path = "" <;> simp [readSetFields, hbs, hp]

/-- Witness for C4 at the boundary fixture: build settings present but
repo path empty, so the repo attribute comes out absent. -/
theorem C4_read_repo_iff_witness :
    (resourceSiteRead apiEmptyPath dRepoEx).err = none ∧
    (resourceSiteRead apiEmptyPath dRepoEx).d.repo = none := by
  have h := C4_read_repo_iff apiEmptyPath dRepoEx siteEmptyPathEx rfl
  exact ⟨h.1, by simpa using h.2⟩

/-- C5: when the repo block is absent, the outbound payload carries no
repo object at all. -/
theorem C5_no_repo_payload (d : ResourceData) (h : d.repo = none) :
    (resourceSite_setupStruct d).repo = none := by
  simp [resourceSite_setupStruct, h]

/-- Witness for C5 at the concrete repo-absent fixture. -/
theorem C5_no_repo_payload_witness :
    (resourceSite_setupStruct dTeamEx).repo = none :=
  C5_no_repo_payload dTeamEx rfl

/-- C2: create issues exactly one creation call — the team-scoped one,
with the declared slug and the setup payload, exactly when the declared
account slug is non-empty, and the default one with just the payload
otherwise; the creation calls in the trace are exactly that singleton,
so the two variants are mutually exclusive and neither occurs as a
fallback after the other. -/
theorem C2_create_one_creation_call (api : NetlifyOps) (d : ResourceData) :
    (resourceSiteCreate api d).calls.filter isCreationCall =
      (if d.account_slug ≠ "" then
        [ApiCall.createSiteInTeam d.account_slug (resourceSite_setupStruct d)]
      else
        [ApiCall.createSite (resourceSite_setupStruct d)]) := by
  by_cases h : d.account_slug = ""
  · simp only [resourceSiteCreate, h, ne_eq, not_true_eq_false, if_false, ite_false]
    cases hc : api.createSite (resourceSite_setupStruct d) with
    | error e => simp [isCreationCall]
    | ok site => simp [resourceSiteRead_calls, isCreationCall]
  · simp only [resourceSiteCreate, h, ne_eq, not_false_eq_true, if_true, ite_true]
    cases hc : api.createSiteInTeam d.account_slug (resourceSite_setupStruct d) with
    | error e => simp [isCreationCall]
    | ok site => simp [resourceSiteRead_calls, isCreationCall]

/-- C6: update's trace contains exactly one mutating call — the update
call scoped to the current id carrying the payload built by the same
`resourceSite_setupStruct` used by create — never a team-scoped
variant, whatever the account slug; and when that call succeeds, the
whole result is that of a full read chained after it. -/
theorem C6_update_one_call_then_read (api : NetlifyOps) (d : ResourceData) :
    (resourceSiteUpdate api d).calls.filter isMutationCall =
      [ApiCall.updateSite d.id (resourceSite_setupStruct d)] ∧
    (∀ site, api.updateSite d.id (resourceSite_setupStruct d) = Except.ok site →
      resourceSiteUpdate api d =
        { err := (resourceSiteRead api d).err
          d := (resourceSiteRead api d).d
          calls := ApiCall.updateSite d.id (resourceSite_setupStruct d) ::
            (resourceSiteRead api d).calls }) := by
  constructor
  · cases hu : api.updateSite d.id (resourceSite_setupStruct d) with
    | error e => simp [resourceSiteUpdate, hu, isMutationCall]
    | ok site => simp [resourceSiteUpdate, hu, resourceSiteRead_calls, isMutationCall]
  · intro site hu
    simp [resourceSiteUpdate, hu]

/-- Witness for C6 on the all-success API. -/
theorem C6_update_one_call_then_read_witness :
    (resourceSiteUpdate apiOk dRepoEx).calls.filter isMutationCall =
      [ApiCall.updateSite "s1" (resourceSite_setupStruct dRepoEx)] ∧
    resourceSiteUpdate apiOk dRepoEx =
      { err := (resourceSiteRead apiOk dRepoEx).err
        d := (resourceSiteRead apiOk dRepoEx).d
        calls := ApiCall.updateSite "s1" (resourceSite_setupStruct dRepoEx) ::
          (resourceSiteRead apiOk dRepoEx).calls } :=
  ⟨(C6_update_one_call_then_read apiOk dRepoEx).1,
   (C6_update_one_call_then_read apiOk dRepoEx).2 siteEx rfl⟩

/-- C8: under a fixed get-site response (the remote answers every id
the same way, i.e. no external mutation), reading twice in succession
yields the same tracked state and the same error status as reading
once: the second read changes nothing. -/
theorem C8_read_idempotent (api : NetlifyOps) (d : ResourceData)
    (hfix : ∀ s : String, api.getSite s = api.getSite d.id) :
    (resourceSiteRead api (resourceSiteRead api d).d).d = (resourceSiteRead api d).d ∧
    (resourceSiteRead api (resourceSiteRead api d).d).err = (resourceSiteRead api d).err := by
  cases hg : api.getSite d.id with
  | ok site =>
      have h1 : resourceSiteRead api d =
          { err := none, d := readSetFields d site, calls := [ApiCall.getSite d.id] } := by
        simp [resourceSiteRead, hg]
      have hid : (readSetFields d site).id = d.id := readSetFields_id d site
      have hg2 : api.getSite (readSetFields d site).id = Except.ok site := by
        rw [hid, hg]
      have h2 : resourceSiteRead api (readSetFields d site) =
          { err := none, d := readSetFields (readSetFields d site) site
            calls := [ApiCall.getSite (readSetFields d site).id] } := by
        simp [resourceSiteRead, hg2]
      rw [h1]
      simp only [h2]
      exact ⟨readSetFields_congr _ _ site hid, trivial⟩
  | error e =>
      by_cases h404 : isNotFound404 e = true
      · have h1 : resourceSiteRead api d =
            { err := none, d := setId d "", calls := [ApiCall.getSite d.id] } := by
          simp [resourceSiteRead, hg, h404]
        have hg2 : api.getSite (setId d "").id = Except.error e := by
          rw [show (setId d "").id = "" from rfl, hfix "", hg]
        have h2 : resourceSiteRead api (setId d "") =
            { err := none, d := setId (setId d "") ""
              calls := [ApiCall.getSite (setId d "").id] } := by
          simp [resourceSiteRead, hg2, h404]
        rw [h1]
        simp only [h2]
        exact ⟨rfl, trivial⟩
      · have h1 : resourceSiteRead api d =
            { err := some e, d := d, calls := [ApiCall.getSite d.id] } := by
          simp [resourceSiteRead, hg, h404]
        rw [h1]
        simp [resourceSiteRead, hg, h404]

/-- Witness for C8 on the all-success API, whose get-site response is
fixed. -/
theorem C8_read_idempotent_witness :
    (resourceSiteRead apiOk (resourceSiteRead apiOk dRepoEx).d).d =
      (resourceSiteRead apiOk dRepoEx).d ∧
    (resourceSiteRead apiOk (resourceSiteRead apiOk dRepoEx).d).err =
      (resourceSiteRead apiOk dRepoEx).err :=
  C8_read_idempotent apiOk dRepoEx (fun _ => rfl)

/-- An API on which every operation fails with the same transport
error. -/
def apiFail : NetlifyOps :=
  { createSite := fun _ => Except.error (ApiError.transport "boom")
    createSiteInTeam := fun _ _ => Except.error (ApiError.transport "boom")
    getSite := fun _ => Except.error (ApiError.transport "boom")
    updateSite := fun _ _ => Except.error (ApiError.transport "boom")
    deleteSite := fun _ => Except.error (ApiError.transport "boom") }

/-- An API whose mutations succeed but whose get-site fails with a
transport (non-404) error. -/
def apiReadFail : NetlifyOps :=
  { apiOk with getSite := fun _ => Except.error (ApiError.transport "boom") }

/-- An API whose creations succeed but whose get-site answers the 404
not-found default. -/
def apiCreate404 : NetlifyOps :=
  { apiOk with getSite := fun _ => Except.error (ApiError.getSiteDefault 404) }

/-- C7: every remote failure other than the get-site 404 is returned
unmodified, with a single call in the trace (no retry) and no
compensating rollback: a failed creation call (either variant), a
failed non-404 get-site, a failed update and a failed delete each
propagate their error with the state untouched; and when the trailing
read after a successful create or update fails with a non-404 error,
that error is returned even though the mutation already succeeded. -/
theorem C7_errors_propagated (api : NetlifyOps) (d : ResourceData) (e : ApiError)
    (site : Site) :
    (d.account_slug = "" → api.createSite (resourceSite_setupStruct d) = Except.error e →
      resourceSiteCreate api d =
        { err := some e, d := d
          calls := [ApiCall.createSite (resourceSite_setupStruct d)] }) ∧
    (d.account_slug ≠ "" →
      api.createSiteInTeam d.account_slug (resourceSite_setupStruct d) = Except.error e →
      resourceSiteCreate api d =
        { err := some e, d := d
          calls := [ApiCall.createSiteInTeam d.account_slug (resourceSite_setupStruct d)] }) ∧
    (api.getSite d.id = Except.error e → isNotFound404 e = false →
      resourceSiteRead api d =
        { err := some e, d := d, calls := [ApiCall.getSite d.id] }) ∧
    (api.updateSite d.id (resourceSite_setupStruct d) = Except.error e →
      resourceSiteUpdate api d =
        { err := some e, d := d
          calls := [ApiCall.updateSite d.id (resourceSite_setupStruct d)] }) ∧
    (api.deleteSite d.id = Except.error e →
      resourceSiteDelete api d =
        { err := some e, d := d, calls := [ApiCall.deleteSite d.id] }) ∧
    (d.account_slug = "" → api.createSite (resourceSite_setupStruct d) = Except.ok site →
      api.getSite site.id = Except.error e → isNotFound404 e = false →
      (resourceSiteCreate api d).err = some e) ∧
    (api.updateSite d.id (resourceSite_setupStruct d) = Except.ok site →
      api.getSite d.id = Except.error e → isNotFound404 e = false →
      (resourceSiteUpdate api d).err = some e) := by
  refine ⟨?_, ?_, ?_, ?_, ?_, ?_, ?_⟩
  · intro hs hc
    simp [resourceSiteCreate, hs, hc]
  · intro hs hc
    simp [resourceSiteCreate, hs, hc]
  · intro hg h404
    simp [resourceSiteRead, hg, h404]
  · intro hu
    simp [resourceSiteUpdate, hu]
  · intro hdel
    simp [resourceSiteDelete, hdel]
  · intro hs hc hg h404
    simp [resourceSiteCreate, hs, hc, resourceSiteRead, setId, hg, h404]
  · intro hu hg h404
    simp [resourceSiteUpdate, hu, resourceSiteRead, hg, h404]

/-- Witness for C7, instantiating every conjunct on concrete APIs. -/
theorem C7_errors_propagated_witness :
    resourceSiteCreate apiFail dRepoEx =
      { err := some (ApiError.transport "boom"), d := dRepoEx
        calls := [ApiCall.createSite (resourceSite_setupStruct dRepoEx)] } ∧
    resourceSiteCreate apiFail dTeamEx =
      { err := some (ApiError.transport "boom"), d := dTeamEx
        calls := [ApiCall.createSiteInTeam "team-x" (resourceSite_setupStruct dTeamEx)] } ∧
    resourceSiteRead apiFail dRepoEx =
      { err := some (ApiError.transport "boom"), d := dRepoEx
        calls := [ApiCall.getSite "s1"] } ∧
    resourceSiteUpdate apiFail dRepoEx =
      { err := some (ApiError.transport "boom"), d := dRepoEx
        calls := [ApiCall.updateSite "s1" (resourceSite_setupStruct dRepoEx)] } ∧
    resourceSiteDelete apiFail dRepoEx =
      { err := some (ApiError.transport "boom"), d := dRepoEx
        calls := [ApiCall.deleteSite "s1"] } ∧
    (resourceSiteCreate apiReadFail dRepoEx).err = some (ApiError.transport "boom") ∧
    (resourceSiteUpdate apiReadFail dRepoEx).err = some (ApiError.transport "boom") :=
  ⟨(C7_errors_propagated apiFail dRepoEx (ApiError.transport "boom") siteEx).1 rfl rfl,
   (C7_errors_propagated apiFail dTeamEx (ApiError.transport "boom") siteEx).2.1
     (by decide) rfl,
   (C7_errors_propagated apiFail dRepoEx (ApiError.transport "boom") siteEx).2.2.1 rfl rfl,
   (C7_errors_propagated apiFail dRepoEx (ApiError.transport "boom") siteEx).2.2.2.1 rfl,
   (C7_errors_propagated apiFail dRepoEx (ApiError.transport "boom") siteEx).2.2.2.2.1 rfl,
   (C7_errors_propagated apiReadFail dRepoEx (ApiError.transport "boom") siteEx).2.2.2.2.2.1
     rfl rfl rfl rfl,
   (C7_errors_propagated apiReadFail dRepoEx (ApiError.transport "boom") siteEx).2.2.2.2.2.2
     rfl rfl rfl⟩

/-- C9: when the selected creation call fails, create returns that
error with the attribute set completely unchanged — the identifier is
not assigned — and the trace is the single failed creation call, so no
read is performed. -/
theorem C9_create_atomic_on_failure (api : NetlifyOps) (d : ResourceData) (e : ApiError) :
    (d.account_slug = "" → api.createSite (resourceSite_setupStruct d) = Except.error e →
      resourceSiteCreate api d =
        { err := some e, d := d
          calls := [ApiCall.createSite (resourceSite_setupStruct d)] } ∧
      (resourceSiteCreate api d).calls.filter (fun c => !isCreationCall c) = []) ∧
    (d.account_slug ≠ "" →
      api.createSiteInTeam d.account_slug (resourceSite_setupStruct d) = Except.error e →
      resourceSiteCreate api d =
        { err := some e, d := d
          calls := [ApiCall.createSiteInTeam d.account_slug (resourceSite_setupStruct d)] } ∧
      (resourceSiteCreate api d).calls.filter (fun c => !isCreationCall c) = []) := by
  constructor
  · intro hs hc
    refine ⟨by simp [resourceSiteCreate, hs, hc], ?_⟩
    simp [resourceSiteCreate, hs, hc, isCreationCall]
  · intro hs hc
    refine ⟨by simp [resourceSiteCreate, hs, hc], ?_⟩
    simp [resourceSiteCreate, hs, hc, isCreationCall]

/-- Witness for C9 on the all-failing API, one instantiation per
branch. -/
theorem C9_create_atomic_on_failure_witness :
    (resourceSiteCreate apiFail dRepoEx =
      { err := some (ApiError.transport "boom"), d := dRepoEx
        calls := [ApiCall.createSite (resourceSite_setupStruct dRepoEx)] } ∧
     (resourceSiteCreate apiFail dRepoEx).calls.filter (fun c => !isCreationCall c) = []) ∧
    (resourceSiteCreate apiFail dTeamEx =
      { err := some (ApiError.transport "boom"), d := dTeamEx
        calls := [ApiCall.createSiteInTeam "team-x" (resourceSite_setupStruct dTeamEx)] } ∧
     (resourceSiteCreate apiFail dTeamEx).calls.filter (fun c => !isCreationCall c) = []) :=
  ⟨(C9_create_atomic_on_failure apiFail dRepoEx (ApiError.transport "boom")).1 rfl rfl,
   (C9_create_atomic_on_failure apiFail dTeamEx (ApiError.transport "boom")).2
     (by decide) rfl⟩

/-- C10: when the selected creation call succeeds but the trailing
read finds a 404, create returns no error while the just-assigned
identifier has been cleared: the final state is the original
attributes with an empty id. -/
theorem C10_create_then_404_read (api : NetlifyOps) (d : ResourceData) (site : Site)
    (e : ApiError) :
    (d.account_slug = "" → api.createSite (resourceSite_setupStruct d) = Except.ok site →
      api.getSite site.id = Except.error e → isNotFound404 e = true →
      (resourceSiteCreate api d).err = none ∧
      (resourceSiteCreate api d).d = setId d "") ∧
    (d.account_slug ≠ "" →
      api.createSiteInTeam d.account_slug (resourceSite_setupStruct d) = Except.ok site →
      api.getSite site.id = Except.error e → isNotFound404 e = true →
      (resourceSiteCreate api d).err = none ∧
      (resourceSiteCreate api d).d = setId d "") := by
  constructor
  · intro hs hc hg h404
    constructor
    · simp [resourceSiteCreate, hs, hc, resourceSiteRead, setId, hg, h404]
    · simp [resourceSiteCreate, hs, hc, resourceSiteRead, setId, hg, h404]
  · intro hs hc hg h404
    constructor
    · simp [resourceSiteCreate, hs, hc, resourceSiteRead, setId, hg, h404]
    · simp [resourceSiteCreate, hs, hc, resourceSiteRead, setId, hg, h404]

/-- Witness for C10: creations succeed, get-site answers 404, one
instantiation per branch. -/
theorem C10_create_then_404_read_witness :
    ((resourceSiteCreate apiCreate404 dRepoEx).err = none ∧
     (resourceSiteCreate apiCreate404 dRepoEx).d = setId dRepoEx "") ∧
    ((resourceSiteCreate apiCreate404 dTeamEx).err = none ∧
     (resourceSiteCreate apiCreate404 dTeamEx).d = setId dTeamEx "") :=
  ⟨(C10_create_then_404_read apiCreate404 dRepoEx siteEx (ApiError.getSiteDefault 404)).1
     rfl rfl rfl rfl,
   (C10_create_then_404_read apiCreate404 dTeamEx siteEx (ApiError.getSiteDefault 404)).2
     (by decide) rfl rfl rfl⟩

end Netlify
